import Mathlib

/-!
Verification of the docker/mcp-gateway-oauth-helpers core: the WWW-Authenticate
challenge parser, the resource-discovery pipeline with its fallback path,
Dynamic Client Registration (DCR), the redirect-URI allowlist validator, and the
context-carried logger. The repository ships its tests (`dcr_test.go`,
`www_authenticate_test.go`, the discovery tests) and `log.go`; the
implementation files of the validator, parser, discovery pipeline and DCR are
not in the tree, so those operations are modelled from the specification, as
noted on each definition. `log.go` is embedded directly from its source.
-/

namespace OAuthHelpers

/-- Error taxonomy of the spec (§7): ParseError, ConfigurationError,
ValidationError, NetworkError, ProtocolError, CancelledError, each carrying a
human-readable message. -/
inductive OAuthError where
  | parseError (msg : String)
  | configurationError (msg : String)
  | validationError (msg : String)
  | networkError (msg : String)
  | protocolError (msg : String)
  | cancelledError (msg : String)
deriving Repr, DecidableEq

/-- The message carried by an error. -/
def OAuthError.message : OAuthError → String
  | .parseError m => m
  | .configurationError m => m
  | .validationError m => m
  | .networkError m => m
  | .protocolError m => m
  | .cancelledError m => m

/-- Modelled from the spec: the components of an absolute URL that the missing
implementation obtains from Go's `net/url` parser — scheme, raw authority
(host, with brackets and port kept), bare host (brackets and port stripped),
and path. -/
structure ParsedURL where
  scheme : String
  hostport : String
  host : String
  path : String
deriving Repr, DecidableEq

/-- Modelled from the spec: split a character list at the first `://`,
returning the scheme characters before it and the characters after it. -/
def splitScheme : List Char → List Char → Option (List Char × List Char)
  | [], _ => none
  | ':' :: '/' :: '/' :: rest, acc => some (acc.reverse, rest)
  | c :: rest, acc => splitScheme rest (c :: acc)

/-- Modelled from the spec: parse a string as an absolute URL
(`scheme://authority/path`); strings without a `://` separator, or with an
empty scheme, do not parse. The authority runs to the first slash; the bare
host strips an IPv6 bracket notation and a trailing port. Stands in for Go's
`net/url.Parse` as used by the missing validator and discovery code. -/
def parseURL (s : String) : Option ParsedURL :=
  match splitScheme s.data [] with
  | none => none
  | some (sc, tail) =>
    if sc = [] then none
    else
      let auth := tail.takeWhile (fun c => c ≠ '/')
      let path := tail.dropWhile (fun c => c ≠ '/')
      let host :=
        if auth.head? = some '[' then (auth.drop 1).takeWhile (fun c => c ≠ ']')
        else auth.takeWhile (fun c => c ≠ ':')
      some { scheme := String.mk sc, hostport := String.mk auth,
             host := String.mk host, path := String.mk path }

/-- The fixed production callback host of the validator (§4.4; the tests pin it
to `mcp.docker.com`). -/
def productionHost : String := "mcp.docker.com"

/-- The fixed default production callback URI that an empty `redirectURI`
resolves to in DCR (§4.3; the tests pin it to the production callback). -/
def defaultRedirectURI : String := "https://mcp.docker.com/oauth/callback"

/-- Loopback identifiers accepted by the validator: `localhost`, `127.0.0.1`,
and the normalized IPv6 loopback with brackets already stripped (§4.4). -/
def isLoopbackHost (host : String) : Bool :=
  host = "localhost" || host = "127.0.0.1" || host = "::1"

/-- Modelled from the spec: the redirect-URI allowlist validator
`isValidRedirectURI` (§4.4), whose implementation file is not in the tree.
Returns `none` for valid input, `some ValidationError` otherwise: the empty
string is valid; otherwise the URI must parse as an absolute http/https URL
whose host is a loopback identifier (either scheme) or exactly the production
host on https. -/
def isValidRedirectURI (uri : String) : Option OAuthError :=
  if uri = "" then none
  else
    match parseURL uri with
    | none => some (.validationError ("invalid redirect URI: " ++ uri))
    | some u =>
      if u.scheme = "http" ∨ u.scheme = "https" then
        if isLoopbackHost u.host then none
        else if u.host = productionHost ∧ u.scheme = "https" then none
        else some (.validationError ("redirect URI host not allowed: " ++ u.host))
      else some (.validationError ("redirect URI must use http or https: " ++ uri))

/-- The allowlist as the spec words it (§4.4), as a predicate: empty, or an
absolute http/https URL whose host is loopback on either scheme or exactly the
production host on https. Used to state the characterization of
`isValidRedirectURI`. -/
def redirectURIAllowedSpec (uri : String) : Prop :=
  uri = "" ∨
    ∃ u, parseURL uri = some u ∧ (u.scheme = "http" ∨ u.scheme = "https") ∧
      (isLoopbackHost u.host = true ∨ (u.host = productionHost ∧ u.scheme = "https"))

/-- One authentication challenge of a WWW-Authenticate header: a scheme and
its parameters, an open string→string mapping kept as an association list in
encounter order (§3). -/
structure WWWAuthenticateChallenge where
  scheme : String
  parameters : List (String × String)
deriving Repr, DecidableEq

/-- Modelled from the spec: the tokenizer of the missing challenge parser.
Splits a header value at commas and spaces that are outside double quotes;
quoted content is never split. Quote characters are kept in the token and
stripped later when a parameter value is extracted. -/
def tokenize : List Char → Bool → List Char → List (List Char)
  | [], _, cur => if cur = [] then [] else [cur]
  | c :: rest, inQ, cur =>
    if c = '"' then tokenize rest (!inQ) (cur ++ [c])
    else if (c = ',' || c = ' ') && !inQ then
      if cur = [] then tokenize rest inQ []
      else cur :: tokenize rest inQ []
    else tokenize rest inQ (cur ++ [c])

/-- A token is a parameter token when it contains `=`; otherwise it is a bare
scheme token that opens a new challenge (§4.1). -/
def isParamToken (tok : List Char) : Bool := tok.contains '='

/-- Modelled from the spec: split a parameter token at its first `=` into key
and value, stripping one pair of surrounding double quotes from the value. -/
def parseParam (tok : List Char) : String × String :=
  let key := tok.takeWhile (fun c => c ≠ '=')
  let raw := (tok.dropWhile (fun c => c ≠ '=')).drop 1
  let val :=
    if raw.length ≥ 2 ∧ raw.head? = some '"' ∧ raw.getLast? = some '"' then
      (raw.drop 1).dropLast
    else raw
  (String.mk key, String.mk val)

/-- Modelled from the spec: group a token stream into challenges. A bare token
starts a new challenge; parameter tokens attach to the challenge currently
open; parameter tokens before any scheme token are dropped. -/
def groupTokens : List (List Char) → Option WWWAuthenticateChallenge → List WWWAuthenticateChallenge
  | [], none => []
  | [], some c => [c]
  | t :: rest, cur =>
    if isParamToken t then
      match cur with
      | none => groupTokens rest none
      | some c =>
        groupTokens rest (some { c with parameters := c.parameters ++ [parseParam t] })
    else
      (match cur with | none => [] | some c => [c]) ++
        groupTokens rest (some ⟨String.mk t, []⟩)

/-- Modelled from the spec: `ParseWWWAuthenticate` (§4.1), whose implementation
file is not in the tree. Tokenizes the comma-and/or-space-delimited header,
groups tokens into challenges at bare-scheme boundaries, and fails with a
ParseError when the input is empty or contains no valid scheme token. -/
def parseChallenges (header : String) : Except OAuthError (List WWWAuthenticateChallenge) :=
  if groupTokens (tokenize header.data false []) none = [] then
    .error (.parseError "no valid scheme token in WWW-Authenticate header")
  else .ok (groupTokens (tokenize header.data false []) none)

/-- The bare scheme tokens of a header, in encounter order; used to state that
`parseChallenges` yields exactly one challenge per scheme token. -/
def bareTokens (header : String) : List (List Char) :=
  (tokenize header.data false []).filter (fun t => !isParamToken t)

/-- Modelled from the spec: `FindResourceMetadataURL` (§4.1) — the
`resource_metadata` parameter value of the first challenge carrying it, `""`
when none does or the sequence is empty. -/
def findResourceMetadataURL : List WWWAuthenticateChallenge → String
  | [] => ""
  | c :: rest =>
    match c.parameters.lookup "resource_metadata" with
    | some v => v
    | none => findResourceMetadataURL rest

/-- ProtectedResourceMetadata (§3): which authorization server protects a
resource, and its scopes. -/
structure ProtectedResourceMetadata where
  resource : String
  authorizationServer : String
  scopes : List String
deriving Repr, DecidableEq

/-- AuthorizationServerMetadata (§3). -/
structure AuthorizationServerMetadata where
  issuer : String
  authorizationEndpoint : String
  tokenEndpoint : String
  registrationEndpoint : String
  codeChallengeMethodsSupported : List String
deriving Repr, DecidableEq

/-- The assembled discovery result (§3). -/
structure Discovery where
  requiresOAuth : Bool
  authorizationEndpoint : String
  tokenEndpoint : String
  registrationEndpoint : String
  resourceURL : String
  scopes : List String
  supportsPKCE : Bool
deriving Repr, DecidableEq

/-- Severity of a log line emitted through the logging capability. -/
inductive LogLevel where
  | info
  | warn
  | error
deriving Repr, DecidableEq

/-- One log line: its severity and message. -/
structure LogEntry where
  level : LogLevel
  msg : String
deriving Repr, DecidableEq

/-- Whether `ys` occurs at the start of `xs`. -/
def startsWithList : List Char → List Char → Bool
  | _, [] => true
  | [], _ :: _ => false
  | x :: xs, y :: ys => x = y && startsWithList xs ys

/-- Whether `ys` occurs as a contiguous sublist of `xs`. -/
def hasSubList : List Char → List Char → Bool
  | [], ys => ys.isEmpty
  | x :: xs, ys => startsWithList (x :: xs) ys || hasSubList xs ys

/-- Whether `sub` occurs as a substring of `s` (executable check). -/
def strContainsSub (s sub : String) : Bool := hasSubList s.data sub.data

/-- `sub` occurs as a substring of `s`, stated by decomposition; used for the
stable error-message contract of §7. -/
def containsSubstringP (s sub : String) : Prop :=
  ∃ a b : List Char, s.data = a ++ sub.data ++ b

/-- Modelled from the spec: the origin (`scheme://host[:port]`) of a URL, used
to construct well-known metadata URLs in the discovery pipeline (§4.2). -/
def originOf (s : String) : String :=
  match parseURL s with
  | some u => u.scheme ++ "://" ++ u.hostport
  | none => s

/-- Modelled from the spec: the fallback protected-resource metadata URL,
`<resource origin>/.well-known/oauth-protected-resource` (§4.2 step 2). -/
def wellKnownProtectedResourceURL (resourceURL : String) : String :=
  originOf resourceURL ++ "/.well-known/oauth-protected-resource"

/-- Modelled from the spec: where to fetch authorization-server metadata (§4.2
step 4) — the authorization-server identifier itself when it is already a
metadata document URL, otherwise
`<authServer origin>/.well-known/oauth-authorization-server`. -/
def authServerMetadataURL (authServer : String) : String :=
  if strContainsSub authServer "/.well-known/" then authServer
  else originOf authServer ++ "/.well-known/oauth-authorization-server"

/-- Modelled from the spec: the boundary to the HTTP transport used by
discovery (§6), given as oracles: the probe GET (status and optional
WWW-Authenticate header value), the protected-resource metadata fetch, and the
authorization-server metadata fetch. -/
structure Net where
  probe : String → Except OAuthError (Nat × Option String)
  fetchProtectedResourceMetadata : String → Except OAuthError ProtectedResourceMetadata
  fetchAuthServerMetadata : String → Except OAuthError AuthorizationServerMetadata

/-- Wrap an error with a stage-identifying message, keeping its kind (§7). -/
def wrapError (pre : String) : OAuthError → OAuthError
  | .parseError m => .parseError (pre ++ m)
  | .configurationError m => .configurationError (pre ++ m)
  | .validationError m => .validationError (pre ++ m)
  | .networkError m => .networkError (pre ++ m)
  | .protocolError m => .protocolError (pre ++ m)
  | .cancelledError m => .cancelledError (pre ++ m)

/-- The discovery result assembled in §4.2 step 5. -/
def assembleDiscovery (resourceURL : String) (prm : ProtectedResourceMetadata)
    (asm : AuthorizationServerMetadata) : Discovery :=
  { requiresOAuth := true,
    authorizationEndpoint := asm.authorizationEndpoint,
    tokenEndpoint := asm.tokenEndpoint,
    registrationEndpoint := asm.registrationEndpoint,
    resourceURL := resourceURL,
    scopes := prm.scopes,
    supportsPKCE := asm.codeChallengeMethodsSupported.contains "S256" }

/-- The terminal-success result when the probe sees no 401 (§4.2 step 1). -/
def noOAuthDiscovery (resourceURL : String) : Discovery :=
  { requiresOAuth := false, authorizationEndpoint := "", tokenEndpoint := "",
    registrationEndpoint := "", resourceURL := resourceURL, scopes := [],
    supportsPKCE := false }

/-- The two log lines of the fallback branch (§4.2 step 2, Absent). -/
def fallbackLogs : List LogEntry :=
  [⟨.warn, "no WWW-Authenticate header present"⟩,
   ⟨.info, "FALLBACK: trying well-known endpoint"⟩]

/-- The log line of the header-present branch (§4.2 step 2, Present). -/
def headerLogs (h : String) : List LogEntry :=
  [⟨.info, "WWW-Authenticate header present: " ++ h⟩]

/-- Modelled from the spec: steps 3–5 of the discovery pipeline (§4.2) — fetch
protected-resource metadata, fetch authorization-server metadata (wrapping a
failure with the contractual "fetching authorization server metadata" message),
require the mandatory endpoints (a missing required metadata field is a
ProtocolError, §7, preserving the §3 invariant), then assemble. -/
def discoverFrom (net : Net) (resourceURL metadataURL : String) (logs : List LogEntry) :
    Except OAuthError Discovery × List LogEntry :=
  match net.fetchProtectedResourceMetadata metadataURL with
  | .error e => (.error e, logs)
  | .ok prm =>
    match net.fetchAuthServerMetadata (authServerMetadataURL prm.authorizationServer) with
    | .error e => (.error (wrapError "fetching authorization server metadata: " e), logs)
    | .ok asm =>
      if asm.authorizationEndpoint = "" ∨ asm.tokenEndpoint = "" then
        (.error (.protocolError "authorization server metadata missing required endpoint"), logs)
      else (.ok (assembleDiscovery resourceURL prm asm), logs)

/-- Modelled from the spec: `DiscoverOAuthRequirements` (§4.2), whose
implementation file is not in the tree. Probes the resource; a non-401 ends
with `requiresOAuth=false`; on 401 it branches on WWW-Authenticate presence —
parsing the header and locating `resource_metadata`, or logging the warning and
FALLBACK lines and constructing the well-known URL — then runs steps 3–5.
Returns the result paired with the log lines emitted. -/
def discover (net : Net) (resourceURL : String) :
    Except OAuthError Discovery × List LogEntry :=
  match net.probe resourceURL with
  | .error e => (.error e, [])
  | .ok (status, header) =>
    if status = 401 then
      match header with
      | some h =>
        match parseChallenges h with
        | .error e => (.error e, headerLogs h)
        | .ok cs =>
          discoverFrom net resourceURL
            (if findResourceMetadataURL cs = "" then wellKnownProtectedResourceURL resourceURL
             else findResourceMetadataURL cs)
            (headerLogs h)
      | none =>
        discoverFrom net resourceURL (wellKnownProtectedResourceURL resourceURL) fallbackLogs
    else (.ok (noOAuthDiscovery resourceURL), [])

/-- DCR registration payload (§3): redirect URIs, grant types, token-endpoint
auth method, client name, scope. -/
structure DCRRequest where
  redirectURIs : List String
  grantTypes : List String
  tokenEndpointAuthMethod : String
  clientName : String
  scope : String
deriving Repr, DecidableEq

/-- DCR registration response (§3). -/
structure DCRResponse where
  clientID : String
  clientSecret : String
  tokenEndpointAuthMethod : String
  grantTypes : List String
  redirectURIs : List String
deriving Repr, DecidableEq

/-- Credentials produced by DCR (§3). -/
structure ClientCredentials where
  clientID : String
  clientSecret : String
  isPublic : Bool
  serverURL : String
deriving Repr, DecidableEq

/-- Outcome of the registration POST at the transport boundary (§4.3): a
decoded response, a transport failure (NetworkError), or a non-success status
or undecodable body (RegistrationError, a ProtocolError variant). -/
inductive DCRNetOutcome where
  | ok (resp : DCRResponse)
  | transportFailure (msg : String)
  | badResponse (msg : String)
deriving Repr, DecidableEq

/-- Space-joined scopes, as sent in the DCR request's `scope` field (§4.3). -/
def joinWithSpace : List String → String
  | [] => ""
  | [s] => s
  | s :: rest => s ++ " " ++ joinWithSpace rest

/-- Modelled from the spec: the client name derived from `serverIdentifier`
(§4.3; the exact derivation is unspecified beyond depending on it). -/
def clientNameFor (serverIdentifier : String) : String :=
  "MCP Gateway (" ++ serverIdentifier ++ ")"

/-- Modelled from the spec: the DCRRequest built in §4.3 — the validated
redirect URI (the fixed default production callback when the argument is
empty), the two grant types, public-client auth method `none`, derived client
name, and space-joined scopes. -/
def buildDCRRequest (discovery : Discovery) (serverIdentifier redirectURI : String) :
    DCRRequest :=
  { redirectURIs := [if redirectURI = "" then defaultRedirectURI else redirectURI],
    grantTypes := ["authorization_code", "refresh_token"],
    tokenEndpointAuthMethod := "none",
    clientName := clientNameFor serverIdentifier,
    scope := joinWithSpace discovery.scopes }

/-- Modelled from the spec: `PerformDCR` (§4.3), whose implementation file is
not in the tree. Fails with ConfigurationError before any network call when the
registration endpoint is empty; validates the redirect URI (ValidationError
aborts before any network call); POSTs the built DCRRequest to the
registration endpoint; on success returns ClientCredentials with
`isPublic = (clientSecret is empty)` and `serverURL = discovery.resourceURL`.
The second component records the POSTs issued, in order. -/
def performDCR (net : String → DCRRequest → DCRNetOutcome) (discovery : Discovery)
    (serverIdentifier redirectURI : String) :
    Except OAuthError ClientCredentials × List (String × DCRRequest) :=
  if discovery.registrationEndpoint = "" then
    (.error (.configurationError "no registration endpoint available"), [])
  else
    match isValidRedirectURI redirectURI with
    | some e => (.error e, [])
    | none =>
      let req := buildDCRRequest discovery serverIdentifier redirectURI
      match net discovery.registrationEndpoint req with
      | .ok resp =>
        (.ok { clientID := resp.clientID, clientSecret := resp.clientSecret,
               isPublic := resp.clientSecret == "", serverURL := discovery.resourceURL },
         [(discovery.registrationEndpoint, req)])
      | .transportFailure m =>
        (.error (.networkError m), [(discovery.registrationEndpoint, req)])
      | .badResponse m =>
        (.error (.protocolError m), [(discovery.registrationEndpoint, req)])

/-- Embedded from `src/log.go`: the concrete implementations behind the
`Logger` interface — `stdLogger` (a label-carrying stderr sink, as built by
`NewPrefixLogger` and for `defaultLogger`), `noopLogger`, and externally
supplied implementations (`wrappedLogger` around an arbitrary object). A Go
interface value of type `Logger` is `Option GoLogger`, with `none` standing
for the nil interface value. -/
inductive GoLogger where
  | std (label : String)
  | noop
  | external (id : Nat)
deriving Repr, DecidableEq

/-- Embedded from `src/log.go`: a context is the background context or a chain
of `context.WithValue(parent, loggerKey, v)` frames; `loggerKey` is the only
key this package uses, so each frame carries the stored `Logger` interface
value (possibly nil). -/
inductive Context where
  | background
  | withLoggerValue (parent : Context) (value : Option GoLogger)
deriving Repr, DecidableEq

/-- Embedded from `src/log.go`: `defaultLogger`, a `stdLogger` writing to
stderr with the fixed `[oauth-helpers]` label; it is a non-nil interface
value. -/
def defaultLogger : GoLogger := .std "[oauth-helpers] "

/-- Embedded from `src/log.go`: `WithLogger` attaches the given logger value to
the context. -/
def WithLogger (ctx : Context) (logger : Option GoLogger) : Context :=
  .withLoggerValue ctx logger

/-- Embedded from `src/log.go`: `LoggerFromContext` reads `ctx.Value(loggerKey)`
— the innermost frame's stored value — and type-asserts it to `Logger`. The
assertion succeeds exactly on a non-nil stored interface value; on a nil value,
or on a context with no frame, it returns `defaultLogger`. -/
def LoggerFromContext : Context → Option GoLogger
  | .background => some defaultLogger
  | .withLoggerValue _ (some l) => some l
  | .withLoggerValue _ none => some defaultLogger

/-- A concrete transport mirroring `TestDiscoveryFallback_NoWWWAuthenticate`:
the resource answers 401 with no WWW-Authenticate header, the well-known
protected-resource document points at an authorization server advertising
S256. -/
def fallbackNet : Net :=
  { probe := fun url =>
      if url = "http://mcp.example.com/mcp" then .ok (401, none)
      else .error (.networkError "unreachable"),
    fetchProtectedResourceMetadata := fun url =>
      if url = "http://mcp.example.com/.well-known/oauth-protected-resource" then
        .ok ⟨"http://mcp.example.com", "http://auth.example.com", []⟩
      else .error (.networkError "unreachable"),
    fetchAuthServerMetadata := fun url =>
      if url = "http://auth.example.com/.well-known/oauth-authorization-server" then
        .ok ⟨"http://auth.example.com", "http://auth.example.com/authorize",
             "http://auth.example.com/token", "http://auth.example.com/register", ["S256"]⟩
      else .error (.networkError "unreachable") }

/-- A concrete transport mirroring `TestDiscoveryError_AuthServerFails`: 401
with no header, valid protected-resource metadata, unreachable authorization
server. -/
def authDownNet : Net :=
  { probe := fun _ => .ok (401, none),
    fetchProtectedResourceMetadata := fun _ => .ok ⟨"r", "http://localhost:99999", []⟩,
    fetchAuthServerMetadata := fun _ => .error (.networkError "connection refused") }

/-- The discovery value of `TestPerformDCR_PublicClient`. -/
def dcrTestDiscovery : Discovery :=
  { requiresOAuth := true, authorizationEndpoint := "https://auth.example.com/authorize",
    tokenEndpoint := "https://auth.example.com/token",
    registrationEndpoint := "https://auth.example.com/register",
    resourceURL := "https://api.example.com", scopes := ["read", "write"],
    supportsPKCE := true }

/-- A registration endpoint answering as in `TestPerformDCR_PublicClient`:
public client, no secret. -/
def dcrTestNet : String → DCRRequest → DCRNetOutcome := fun _ _ =>
  .ok { clientID := "test-client-id-123", clientSecret := "",
        tokenEndpointAuthMethod := "none",
        grantTypes := ["authorization_code", "refresh_token"],
        redirectURIs := ["https://mcp.docker.com/oauth/callback"] }

/-- The discovery value of `TestPerformDCR_NoRegistrationEndpoint`: no
registration endpoint. -/
def noRegDiscovery : Discovery :=
  { requiresOAuth := true, authorizationEndpoint := "https://auth.example.com/authorize",
    tokenEndpoint := "https://auth.example.com/token", registrationEndpoint := "",
    resourceURL := "", scopes := [], supportsPKCE := false }

/-- C1: `isValidRedirectURI` accepts exactly the empty string and absolute
http/https URLs whose host is a loopback identifier on either scheme or
exactly the fixed production host on https; every other input — including
look-alike subdomains such as `evil.docker.com` — is rejected with a
ValidationError. Matching is exact-host: the theorem also checks every row of
`TestIsValidRedirectURI`. -/
theorem isValidRedirectURI_characterization :
    (∀ uri, isValidRedirectURI uri = none ↔ redirectURIAllowedSpec uri) ∧
    (∀ uri, isValidRedirectURI uri = none ∨
      ∃ m, isValidRedirectURI uri = some (.validationError m)) ∧
    isValidRedirectURI "" = none ∧
    isValidRedirectURI "http://localhost:5000/callback" = none ∧
    isValidRedirectURI "https://localhost:5000/callback" = none ∧
    isValidRedirectURI "http://127.0.0.1:8080/callback" = none ∧
    isValidRedirectURI "http://[::1]:8080/callback" = none ∧
    isValidRedirectURI "https://mcp.docker.com/oauth/callback" = none ∧
    (isValidRedirectURI "https://evil.com/callback").isSome = true ∧
    (isValidRedirectURI "https://attacker.ngrok.io/callback").isSome = true ∧
    (isValidRedirectURI "https://evil.docker.com/callback").isSome = true ∧
    (isValidRedirectURI "not-a-valid-url").isSome = true := by
  refine ⟨?_, ?_, ?_, ?_, ?_, ?_, ?_, ?_, ?_, ?_, ?_, ?_⟩
  · intro uri
    unfold isValidRedirectURI redirectURIAllowedSpec
    by_cases h0 : uri = ""
    · simp [h0]
    · cases hp : parseURL uri with
      | none => simp [h0, hp]
      | some u =>
        by_cases hs : u.scheme = "http" ∨ u.scheme = "https"
        · by_cases hl : isLoopbackHost u.host = true
          · simp [h0, hp, hs, hl]
          · by_cases hprod : u.host = productionHost ∧ u.scheme = "https"
            · simp [h0, hp, hs, hl, hprod]
            · simp [h0, hp, hs, hl, hprod]
        · simp [h0, hp, hs]
  · intro uri
    unfold isValidRedirectURI
    repeat' split
    all_goals first | exact Or.inl rfl | exact Or.inr ⟨_, rfl⟩
  · rfl
  · decide
  · decide
  · decide
  · decide
  · decide
  · decide
  · decide
  · decide
  · decide

/-- Grouping a token stream yields one challenge per bare scheme token, in
order, after the challenge currently open. -/
theorem groupTokens_schemes (ts : List (List Char)) :
    ∀ cur : Option WWWAuthenticateChallenge,
      (groupTokens ts cur).map WWWAuthenticateChallenge.scheme =
        (match cur with | none => [] | some c => [c.scheme]) ++
          (ts.filter (fun t => !isParamToken t)).map (fun t => String.mk t) := by
  induction ts with
  | nil => intro cur; cases cur <;> simp [groupTokens]
  | cons t rest ih =>
    intro cur
    cases hp : isParamToken t with
    | true =>
      cases cur with
      | none => simp [groupTokens, hp, ih]
      | some c => simp [groupTokens, hp, ih]
    | false =>
      cases cur with
      | none => simp [groupTokens, hp, ih]
      | some c => simp [groupTokens, hp, ih]

set_option maxRecDepth 8192 in
/-- C4: `parseChallenges` returns exactly one challenge per scheme token of the
header, in encounter order; the rows of `TestParseWWWAuthenticate_Valid` parse
to exactly the declared key/value pairs with quotes stripped — in particular
the mixed comma/space-separated header splits at new-scheme boundaries only,
and a quoted value containing a space is not split. -/
theorem parseChallenges_schemes_and_params :
    (∀ header cs, parseChallenges header = .ok cs →
      cs.map WWWAuthenticateChallenge.scheme =
        (bareTokens header).map (fun t => String.mk t)) ∧
    parseChallenges
        "Bearer realm=\"example.com\", resource_metadata=\"https://example.com/.well-known/oauth-protected-resource\"" =
      .ok [⟨"Bearer", [("realm", "example.com"),
        ("resource_metadata", "https://example.com/.well-known/oauth-protected-resource")]⟩] ∧
    parseChallenges "Bearer realm=\"api\", scope=\"read write\"" =
      .ok [⟨"Bearer", [("realm", "api"), ("scope", "read write")]⟩] ∧
    parseChallenges "Basic realm=\"web\", Bearer realm=\"api\" scope=\"read\"" =
      .ok [⟨"Basic", [("realm", "web")]⟩,
           ⟨"Bearer", [("realm", "api"), ("scope", "read")]⟩] := by
  refine ⟨?_, by rfl, by rfl, by rfl⟩
  intro header cs h
  unfold parseChallenges at h
  split at h
  · exact absurd h (by simp)
  · cases h
    exact groupTokens_schemes _ none

/-- Witness for C4 at the mixed-separator header of the tests. -/
theorem parseChallenges_schemes_and_params_witness :
    ([⟨"Basic", [("realm", "web")]⟩,
      ⟨"Bearer", [("realm", "api"), ("scope", "read")]⟩] :
        List WWWAuthenticateChallenge).map WWWAuthenticateChallenge.scheme =
      (bareTokens "Basic realm=\"web\", Bearer realm=\"api\" scope=\"read\"").map
        (fun t => String.mk t) :=
  parseChallenges_schemes_and_params.1
    "Basic realm=\"web\", Bearer realm=\"api\" scope=\"read\"" _ (by rfl)

/-- C8: `parseChallenges` fails exactly when the input is empty or has no bare
scheme token; the failure is always a ParseError, and the empty header fails. -/
theorem parseChallenges_failure_characterization :
    (∀ header, (∃ e, parseChallenges header = .error e) ↔
      (header = "" ∨ bareTokens header = [])) ∧
    (∀ header,
      parseChallenges header =
          .error (.parseError "no valid scheme token in WWW-Authenticate header") ∨
        ∃ cs, parseChallenges header = .ok cs) ∧
    parseChallenges "" =
      .error (.parseError "no valid scheme token in WWW-Authenticate header") := by
  refine ⟨?_, ?_, by rfl⟩
  · intro header
    constructor
    · rintro ⟨e, he⟩
      unfold parseChallenges at he
      split at he
      · rename_i hnil
        right
        have := groupTokens_schemes (tokenize header.data false []) none
        rw [hnil] at this
        simp only [List.map_nil, List.nil_append] at this
        unfold bareTokens
        exact (List.map_eq_nil_iff.mp this.symm)
      · exact absurd he (by simp)
    · intro h
      have hnil : bareTokens header = [] := by
        rcases h with h | h
        · rw [h]; decide
        · exact h
      refine ⟨.parseError "no valid scheme token in WWW-Authenticate header", ?_⟩
      unfold parseChallenges
      have := groupTokens_schemes (tokenize header.data false []) none
      unfold bareTokens at hnil
      rw [hnil] at this
      simp only [List.map_nil, List.nil_append] at this
      have hg : groupTokens (tokenize header.data false []) none = [] :=
        List.map_eq_nil_iff.mp this
      simp [hg]
  · intro header
    unfold parseChallenges
    split
    · exact Or.inl rfl
    · exact Or.inr ⟨_, rfl⟩

/-- C9: `findResourceMetadataURL` returns the `resource_metadata` value of the
first challenge carrying that parameter, in encounter order, and `""` when the
sequence is empty or no challenge carries it; checked also on the rows of
`TestFindResourceMetadataURL`. -/
theorem findResourceMetadataURL_spec :
    (∀ cs : List WWWAuthenticateChallenge,
      findResourceMetadataURL cs =
        match cs.find? (fun c => (c.parameters.lookup "resource_metadata").isSome) with
        | some c => (c.parameters.lookup "resource_metadata").getD ""
        | none => "") ∧
    findResourceMetadataURL
        [⟨"Bearer", [("resource_metadata", "https://example.com/.well-known")]⟩] =
      "https://example.com/.well-known" ∧
    findResourceMetadataURL [⟨"Bearer", [("realm", "test")]⟩] = "" ∧
    findResourceMetadataURL [] = "" := by
  refine ⟨?_, by decide, by decide, rfl⟩
  intro cs
  induction cs with
  | nil => rfl
  | cons c rest ih =>
    cases hl : c.parameters.lookup "resource_metadata" with
    | some v => simp [findResourceMetadataURL, hl, List.find?_cons, Option.isSome]
    | none => simp [findResourceMetadataURL, hl, List.find?_cons, Option.isSome, ih]

/-- C5: with a non-empty registration endpoint and an accepted redirect URI, a
successful `performDCR` POSTs exactly one DCRRequest — grant types
`authorization_code`/`refresh_token`, auth method `none`, the single validated
redirect URI (the fixed default production callback when the argument is
empty) — and returns ClientCredentials with the response's clientID,
`isPublic = (clientSecret is empty)`, and `serverURL = discovery.resourceURL`. -/
theorem performDCR_success (net : String → DCRRequest → DCRNetOutcome)
    (discovery : Discovery) (serverIdentifier redirectURI : String) (resp : DCRResponse)
    (hreg : ¬ discovery.registrationEndpoint = "")
    (hval : isValidRedirectURI redirectURI = none)
    (hnet : net discovery.registrationEndpoint
        (buildDCRRequest discovery serverIdentifier redirectURI) = .ok resp) :
    performDCR net discovery serverIdentifier redirectURI =
      (.ok { clientID := resp.clientID, clientSecret := resp.clientSecret,
             isPublic := resp.clientSecret == "", serverURL := discovery.resourceURL },
       [(discovery.registrationEndpoint,
         buildDCRRequest discovery serverIdentifier redirectURI)]) ∧
    (buildDCRRequest discovery serverIdentifier redirectURI).grantTypes =
      ["authorization_code", "refresh_token"] ∧
    (buildDCRRequest discovery serverIdentifier redirectURI).tokenEndpointAuthMethod =
      "none" ∧
    (buildDCRRequest discovery serverIdentifier redirectURI).redirectURIs =
      [if redirectURI = "" then defaultRedirectURI else redirectURI] := by
  refine ⟨?_, rfl, rfl, rfl⟩
  unfold performDCR
  simp only [if_neg hreg, hval, hnet]

/-- Witness for C5 at the inputs of `TestPerformDCR_PublicClient`. -/
theorem performDCR_success_witness :
    performDCR dcrTestNet dcrTestDiscovery "test-server" "" =
      (.ok { clientID := "test-client-id-123", clientSecret := "",
             isPublic := ("" : String) == "", serverURL := "https://api.example.com" },
       [("https://auth.example.com/register",
         buildDCRRequest dcrTestDiscovery "test-server" "")]) ∧
    (buildDCRRequest dcrTestDiscovery "test-server" "").grantTypes =
      ["authorization_code", "refresh_token"] ∧
    (buildDCRRequest dcrTestDiscovery "test-server" "").tokenEndpointAuthMethod =
      "none" ∧
    (buildDCRRequest dcrTestDiscovery "test-server" "").redirectURIs =
      [if ("" : String) = "" then defaultRedirectURI else ""] :=
  performDCR_success dcrTestNet dcrTestDiscovery "test-server" ""
    { clientID := "test-client-id-123", clientSecret := "",
      tokenEndpointAuthMethod := "none",
      grantTypes := ["authorization_code", "refresh_token"],
      redirectURIs := ["https://mcp.docker.com/oauth/callback"] }
    (by decide) rfl rfl

/-- C6: with an empty registration endpoint, `performDCR` fails immediately
with a ConfigurationError, nil credentials and an empty network trace. -/
theorem performDCR_noRegistrationEndpoint (net : String → DCRRequest → DCRNetOutcome)
    (discovery : Discovery) (serverIdentifier redirectURI : String)
    (hreg : discovery.registrationEndpoint = "") :
    performDCR net discovery serverIdentifier redirectURI =
      (.error (.configurationError "no registration endpoint available"), []) := by
  unfold performDCR
  rw [if_pos hreg]

/-- Witness for C6 at the inputs of `TestPerformDCR_NoRegistrationEndpoint`. -/
theorem performDCR_noRegistrationEndpoint_witness :
    performDCR dcrTestNet noRegDiscovery "test-server" "" =
      (.error (.configurationError "no registration endpoint available"), []) :=
  performDCR_noRegistrationEndpoint dcrTestNet noRegDiscovery "test-server" "" rfl

/-- The message of a wrapped error is the stage message followed by the
underlying message, whatever the error kind. -/
theorem wrapError_message (pre : String) (e : OAuthError) :
    (wrapError pre e).message = pre ++ e.message := by
  cases e <;> rfl

set_option maxRecDepth 2048 in
/-- The wrapped auth-server fetch failure message contains the contractual
substring, by explicit decomposition. -/
theorem containsSubstringP_authFetch (m : String) :
    containsSubstringP ("fetching authorization server metadata: " ++ m)
      "fetching authorization server metadata" := by
  refine ⟨[], (": " ++ m).data, ?_⟩
  show String.data ("fetching authorization server metadata: " ++ m) = _
  rw [String.data_append, String.data_append, List.nil_append, ← List.append_assoc]
  rfl

/-- When the probe answers 401 without a WWW-Authenticate header, discovery
continues from the well-known protected-resource URL with the fallback logs. -/
theorem discover_probe401_noHeader (net : Net) (resourceURL : String)
    (hprobe : net.probe resourceURL = .ok (401, none)) :
    discover net resourceURL =
      discoverFrom net resourceURL (wellKnownProtectedResourceURL resourceURL)
        fallbackLogs := by
  unfold discover
  rw [hprobe]
  rfl

/-- Steps 3–5 on the success path: both metadata fetches succeed and the
mandatory endpoints are present, so the assembled discovery is returned with
the logs unchanged. -/
theorem discoverFrom_success (net : Net) (resourceURL murl : String)
    (logs : List LogEntry) (prm : ProtectedResourceMetadata)
    (asm : AuthorizationServerMetadata)
    (hprm : net.fetchProtectedResourceMetadata murl = .ok prm)
    (hasm : net.fetchAuthServerMetadata
        (authServerMetadataURL prm.authorizationServer) = .ok asm)
    (hne : ¬ (asm.authorizationEndpoint = "" ∨ asm.tokenEndpoint = "")) :
    discoverFrom net resourceURL murl logs =
      (.ok (assembleDiscovery resourceURL prm asm), logs) := by
  unfold discoverFrom
  simp only [hprm, hasm, if_neg hne]

/-- Steps 3–5 when every authorization-server metadata fetch fails: the result
is an error whose message contains the contractual substring. -/
theorem discoverFrom_authFetchFailure (net : Net) (resourceURL murl : String)
    (logs : List LogEntry)
    (hprm : ∀ u, ∃ prm, net.fetchProtectedResourceMetadata u = .ok prm)
    (hasm : ∀ u, ∃ e, net.fetchAuthServerMetadata u = .error e) :
    ∃ e, discoverFrom net resourceURL murl logs = (.error e, logs) ∧
      containsSubstringP e.message "fetching authorization server metadata" := by
  obtain ⟨prm, hp⟩ := hprm murl
  obtain ⟨e, he⟩ := hasm (authServerMetadataURL prm.authorizationServer)
  refine ⟨wrapError "fetching authorization server metadata: " e, ?_, ?_⟩
  · unfold discoverFrom
    simp only [hp, he]
  · rw [wrapError_message]
    exact containsSubstringP_authFetch e.message

/-- A successful `discoverFrom` only ever returns a discovery whose mandatory
endpoints are non-empty. -/
theorem discoverFrom_ok_endpoints (net : Net) (resourceURL murl : String)
    (logs logs' : List LogEntry) (d : Discovery)
    (h : discoverFrom net resourceURL murl logs = (.ok d, logs')) :
    ¬ d.authorizationEndpoint = "" ∧ ¬ d.tokenEndpoint = "" := by
  unfold discoverFrom at h
  split at h
  · exact absurd h (by simp)
  · split at h
    · exact absurd h (by simp)
    · split at h
      · exact absurd h (by simp)
      · rename_i asm hne
        simp only [Prod.mk.injEq, Except.ok.injEq] at h
        obtain ⟨hd, -⟩ := h
        subst hd
        push_neg at hne
        exact ⟨hne.1, hne.2⟩

/-- C2: on a 401 probe with no WWW-Authenticate header, `discover` logs the
warning "no WWW-Authenticate header present" and the "FALLBACK"-tagged info
line, reads the protected-resource metadata at
`<resource origin>/.well-known/oauth-protected-resource`, and — when that
document points at a reachable authorization server advertising S256 — returns
a Discovery with `requiresOAuth = true`, `supportsPKCE = true`, and the
token endpoint copied from the authorization-server metadata. -/
theorem discover_fallback (net : Net) (resourceURL : String)
    (prm : ProtectedResourceMetadata) (asm : AuthorizationServerMetadata)
    (hprobe : net.probe resourceURL = .ok (401, none))
    (hprm : net.fetchProtectedResourceMetadata
        (wellKnownProtectedResourceURL resourceURL) = .ok prm)
    (hasm : net.fetchAuthServerMetadata
        (authServerMetadataURL prm.authorizationServer) = .ok asm)
    (hauth : ¬ asm.authorizationEndpoint = "")
    (htok : ¬ asm.tokenEndpoint = "")
    (hpkce : asm.codeChallengeMethodsSupported.contains "S256" = true) :
    discover net resourceURL =
      (.ok { requiresOAuth := true,
             authorizationEndpoint := asm.authorizationEndpoint,
             tokenEndpoint := asm.tokenEndpoint,
             registrationEndpoint := asm.registrationEndpoint,
             resourceURL := resourceURL, scopes := prm.scopes,
             supportsPKCE := true },
       [⟨.warn, "no WWW-Authenticate header present"⟩,
        ⟨.info, "FALLBACK: trying well-known endpoint"⟩]) := by
  rw [discover_probe401_noHeader net resourceURL hprobe,
    discoverFrom_success net resourceURL _ _ prm asm hprm hasm
      (not_or.mpr ⟨hauth, htok⟩)]
  unfold assembleDiscovery fallbackLogs
  rw [hpkce]

/-- Witness for C2 at the transport of
`TestDiscoveryFallback_NoWWWAuthenticate`. -/
theorem discover_fallback_witness :
    discover fallbackNet "http://mcp.example.com/mcp" =
      (.ok { requiresOAuth := true,
             authorizationEndpoint := "http://auth.example.com/authorize",
             tokenEndpoint := "http://auth.example.com/token",
             registrationEndpoint := "http://auth.example.com/register",
             resourceURL := "http://mcp.example.com/mcp", scopes := [],
             supportsPKCE := true },
       [⟨.warn, "no WWW-Authenticate header present"⟩,
        ⟨.info, "FALLBACK: trying well-known endpoint"⟩]) :=
  discover_fallback fallbackNet "http://mcp.example.com/mcp"
    ⟨"http://mcp.example.com", "http://auth.example.com", []⟩
    ⟨"http://auth.example.com", "http://auth.example.com/authorize",
     "http://auth.example.com/token", "http://auth.example.com/register", ["S256"]⟩
    (by rfl) (by rfl) (by rfl) (by decide) (by decide) (by decide)

/-- C3: whenever discovery reaches the authorization-server metadata fetch and
that fetch fails, `discover` returns an error — never a partially populated
Discovery — whose message contains the literal substring "fetching
authorization server metadata". -/
theorem discover_authServerFetchFailure (net : Net) (resourceURL : String)
    (hdr : Option String)
    (hprobe : net.probe resourceURL = .ok (401, hdr))
    (hparse : ∀ h, hdr = some h → ∃ cs, parseChallenges h = .ok cs)
    (hprm : ∀ u, ∃ prm, net.fetchProtectedResourceMetadata u = .ok prm)
    (hasm : ∀ u, ∃ e, net.fetchAuthServerMetadata u = .error e) :
    ∃ e logs, discover net resourceURL = (.error e, logs) ∧
      containsSubstringP e.message "fetching authorization server metadata" := by
  cases hdr with
  | none =>
    obtain ⟨e, hd, hc⟩ :=
      discoverFrom_authFetchFailure net resourceURL
        (wellKnownProtectedResourceURL resourceURL) fallbackLogs hprm hasm
    refine ⟨e, fallbackLogs, ?_, hc⟩
    rw [discover_probe401_noHeader net resourceURL hprobe]
    exact hd
  | some h =>
    obtain ⟨cs, hcs⟩ := hparse h rfl
    obtain ⟨e, hd, hc⟩ :=
      discoverFrom_authFetchFailure net resourceURL
        (if findResourceMetadataURL cs = "" then wellKnownProtectedResourceURL resourceURL
         else findResourceMetadataURL cs)
        (headerLogs h) hprm hasm
    refine ⟨e, headerLogs h, ?_, hc⟩
    unfold discover
    rw [hprobe]
    simp only [hcs]
    exact hd

/-- Witness for C3 at the transport of `TestDiscoveryError_AuthServerFails`. -/
theorem discover_authServerFetchFailure_witness :
    ∃ e logs, discover authDownNet "http://mcp.example.com/mcp" = (.error e, logs) ∧
      containsSubstringP e.message "fetching authorization server metadata" :=
  discover_authServerFetchFailure authDownNet "http://mcp.example.com/mcp" none rfl
    (fun _ hh => nomatch hh) (fun _ => ⟨_, rfl⟩) (fun _ => ⟨_, rfl⟩)

/-- C7: every Discovery produced by `discover` satisfies the §3 invariant —
`requiresOAuth = true` implies both the authorization endpoint and the token
endpoint are non-empty. -/
theorem discover_requiresOAuth_invariant (net : Net) (resourceURL : String)
    (d : Discovery) (logs : List LogEntry)
    (h : discover net resourceURL = (.ok d, logs))
    (hreq : d.requiresOAuth = true) :
    ¬ d.authorizationEndpoint = "" ∧ ¬ d.tokenEndpoint = "" := by
  unfold discover at h
  split at h
  · exact absurd h (by simp)
  · split at h
    · split at h
      · split at h
        · exact absurd h (by simp)
        · exact discoverFrom_ok_endpoints _ _ _ _ _ _ h
      · exact discoverFrom_ok_endpoints _ _ _ _ _ _ h
    · simp only [Prod.mk.injEq, Except.ok.injEq] at h
      obtain ⟨hd, -⟩ := h
      subst hd
      exact absurd hreq (by simp [noOAuthDiscovery])

/-- Witness for C7 at the fallback transport, where discovery succeeds with
`requiresOAuth = true`. -/
theorem discover_requiresOAuth_invariant_witness :
    ¬ ({ requiresOAuth := true,
         authorizationEndpoint := "http://auth.example.com/authorize",
         tokenEndpoint := "http://auth.example.com/token",
         registrationEndpoint := "http://auth.example.com/register",
         resourceURL := "http://mcp.example.com/mcp", scopes := [],
         supportsPKCE := true } : Discovery).authorizationEndpoint = "" ∧
    ¬ ({ requiresOAuth := true,
         authorizationEndpoint := "http://auth.example.com/authorize",
         tokenEndpoint := "http://auth.example.com/token",
         registrationEndpoint := "http://auth.example.com/register",
         resourceURL := "http://mcp.example.com/mcp", scopes := [],
         supportsPKCE := true } : Discovery).tokenEndpoint = "" :=
  discover_requiresOAuth_invariant fallbackNet "http://mcp.example.com/mcp" _
    [⟨.warn, "no WWW-Authenticate header present"⟩,
     ⟨.info, "FALLBACK: trying well-known endpoint"⟩]
    (by rfl) rfl

/-- C10 counterexample: attaching the nil interface value does not round-trip.
`context.WithValue` stores the nil `Logger`, the type assertion in
`LoggerFromContext` fails on it, and the default logger is returned instead of
the attached value — so the extraction is the default logger and is not the
attached nil. -/
theorem loggerRoundTrip_nil_counterexample :
    LoggerFromContext (WithLogger Context.background none) = some defaultLogger ∧
    (LoggerFromContext (WithLogger Context.background none) = none) = False :=
  ⟨rfl, eq_false (by decide)⟩

/-- C10 (amended): for every context and every non-nil logger value, attaching
then extracting returns exactly that logger; attaching nil, or extracting from
the background context, yields the built-in default logger; `LoggerFromContext`
never returns nil. -/
theorem loggerFromContext_roundTrip :
    (∀ (ctx : Context) (l : GoLogger),
      LoggerFromContext (WithLogger ctx (some l)) = some l) ∧
    (∀ ctx : Context, LoggerFromContext (WithLogger ctx none) = some defaultLogger) ∧
    LoggerFromContext Context.background = some defaultLogger ∧
    (∀ ctx : Context, (LoggerFromContext ctx).isSome = true) := by
  refine ⟨fun ctx l => rfl, fun ctx => rfl, rfl, ?_⟩
  intro ctx
  cases ctx with
  | background => rfl
  | withLoggerValue p v => cases v <;> rfl

end OAuthHelpers
